import Mathlib

/-!
Verification of the query-resolution proxy in `src/main.py` (the `/search`
Flask handler). The handler is embedded shallowly: the query-normalization
chain on line 39-48 becomes pure functions on `List Char`, upstream HTTP
responses become an explicit `HttpResult` oracle, and the handler body
becomes the function `search` returning the produced HTTP response (or an
uncaught exception) together with the list of outbound requests it issued.
-/

set_option autoImplicit false

/-- Characters removed by Python `str.strip()`, restricted to the ASCII
whitespace range (the queries of interest are ASCII). -/
def pySpace (c : Char) : Bool :=
  c = ' ' || c = '\t' || c = '\n' || c = '\r' || c = '\x0b' || c = '\x0c'

/-- Python regex word characters `\w` over the ASCII range: letters, digits
and underscore.  Used for the `\b` boundary in the feat-splitting regex. -/
def wordChar (c : Char) : Bool :=
  c.isAlpha || c.isDigit || c = '_'

/-- Line 39, first replacement: every `+` becomes one space. -/
def replacePlus : List Char → List Char
  | [] => []
  | '+' :: rest => ' ' :: replacePlus rest
  | c :: rest => c :: replacePlus rest

/-- Line 39, second replacement: each occurrence of the three-char
pattern `%26` becomes `&`, scanning left to right. -/
def replace26 : List Char → List Char
  | '%' :: '2' :: '6' :: rest => '&' :: replace26 rest
  | c :: rest => c :: replace26 rest
  | [] => []

/-- Python `str.strip()`: drop leading and trailing whitespace. -/
def pyStrip (l : List Char) : List Char :=
  ((l.dropWhile pySpace).reverse.dropWhile pySpace).reverse

/-- Does the pattern list occur as a prefix of the character list? -/
def startsWithL : List Char → List Char → Bool
  | [], _ => true
  | _ :: _, [] => false
  | p :: ps, c :: cs => p = c && startsWithL ps cs

/-- The fixed last.fm base URL stripped on lines 42-45. -/
def lastfmBase : List Char := "https://www.last.fm/music/".data

/-- Lines 42-45: if the query starts with the last.fm base URL, drop it. -/
def stripLastfm (l : List Char) : List Char :=
  if startsWithL lastfmBase l then l.drop lastfmBase.length else l

/-- Match of `(feat|ft)\b` (case-insensitive) at the head of the list:
the token `feat` or `ft`, followed by a non-word character or end of
string.  The alternation with explicit boundary checks captures the full
backtracking behaviour of the regex engine here, since `ft` is not a
prefix of `feat` nor vice versa. -/
def featTok (cs : List Char) : Bool :=
  (startsWithL "feat".data (cs.map Char.toLower)
      && (match cs.drop 4 with | [] => true | c :: _ => !wordChar c))
  || (startsWithL "ft".data (cs.map Char.toLower)
      && (match cs.drop 2 with | [] => true | c :: _ => !wordChar c))

/-- Match of `\(?(feat|ft)\b` at the head of the list: an optional opening
parenthesis, then the token.  When the head is `'('` the optional group can
only match it (matching it as empty would require the token to start at
`'('`, which fails), so the two regex branches collapse to this. -/
def parenFeat : List Char → Bool
  | '(' :: rest => featTok rest
  | cs => featTok cs

/-- Match of the whole pattern `\s+\(?(feat|ft)\b` (line 48) starting at the
head of the list.  `\s+` can only usefully consume the entire maximal
whitespace run, because `\(?(feat|ft)` never matches at a whitespace
character; so the pattern matches here iff the head is whitespace and
`\(?(feat|ft)\b` matches right after the whitespace run. -/
def matchAt (cs : List Char) : Bool :=
  match cs with
  | [] => false
  | c :: _ => pySpace c && parenFeat (cs.dropWhile pySpace)

/-- Index of the leftmost match of the feat pattern, as found by
`re.split`: the least position at which `matchAt` holds. -/
def splitIdx : List Char → Option Nat
  | [] => none
  | c :: rest => if matchAt (c :: rest) then some 0 else (splitIdx rest).map (· + 1)

/-- Component 0 of the regex split on line 48: everything before the
leftmost match of the pattern, or the whole string when there is no
match. -/
def beforeFeat (cs : List Char) : List Char :=
  match splitIdx cs with
  | none => cs
  | some i => cs.take i

/-- Step 5 of normalization (line 48): split away the featuring suffix,
then `strip()` the kept part. -/
def stepFive (cs : List Char) : List Char :=
  pyStrip (beforeFeat cs)

/-- The whole normalization chain of lines 39-48, on character lists:
`+`-decoding, then `%26`-decoding, then strip, then last.fm prefix
stripping, then the feat split with a final strip. -/
def normList (cs : List Char) : List Char :=
  stepFive (stripLastfm (pyStrip (replace26 (replacePlus cs))))

/-- The normalization chain on strings: raw query to `formatted_query`. -/
def formattedQuery (s : String) : String :=
  ⟨normList s.data⟩

example : formattedQuery "Artist Name feat. Other" = "Artist Name" := by decide
example : formattedQuery "Artist Name FT Other" = "Artist Name" := by decide
example : formattedQuery "A (Feat B)" = "A" := by decide
example : formattedQuery "+++" = "" := by decide
example : formattedQuery "drift" = "drift" := by decide
example : formattedQuery "a%26b" = "a&b" := by decide
example : formattedQuery "https://www.last.fm/music/Daft+Punk" = "Daft Punk" := by decide

/-- Decoded JSON values, as produced by `response.json()`. -/
inductive Json where
  | null
  | bool (b : Bool)
  | num (n : Int)
  | str (s : String)
  | arr (elems : List Json)
  | obj (fields : List (String × Json))

/-- Python truthiness of a decoded JSON value (`if not x`). -/
def Json.truthy : Json → Bool
  | .null => false
  | .bool b => b
  | .num n => n != 0
  | .str s => s != ""
  | .arr elems => !elems.isEmpty
  | .obj fields => !fields.isEmpty

/-- First binding of a key in the field list of an object (parsed JSON objects
have unique keys, so this is plain dictionary lookup). -/
def lookupKey (fields : List (String × Json)) (k : String) : Option Json :=
  (fields.find? (fun p => p.1 = k)).map (·.2)

/-- Python `d.get(k)` on a decoded value: `none` means the value is not a
dict and `.get` raises `AttributeError`; `some none` means the key is
absent (Python `None`); `some (some v)` is the bound value. -/
def Json.pyGet : Json → String → Option (Option Json)
  | .obj fields, k => some (lookupKey fields k)
  | _, _ => none

/-- Python `x[k]` with a string key: `none` means an exception is raised
(`KeyError` for a dict without the key, `TypeError` otherwise). -/
def Json.pySub : Json → String → Option Json
  | .obj fields, k => lookupKey fields k
  | _, _ => none

/-- Python `x[0]`: first element of a list, or a one-character string of a
non-empty string; `none` means an exception is raised (`IndexError`,
`KeyError` or `TypeError`). -/
def Json.pyIdx0 : Json → Option Json
  | .arr (x :: _) => some x
  | .str s => match s.data with
      | c :: _ => some (.str ⟨[c]⟩)
      | [] => none
  | _ => none

/-- Outcome of one outbound `scraper.get(...)` call: a raised network
exception, or a response with a status code and a body (`none` when the
body is not decodable as JSON, so that `.json()` raises). -/
inductive HttpResult where
  | netError (msg : String)
  | resp (status : Nat) (body : Option Json)

/-- The requests-library raise-for-status call raises exactly for 4xx/5xx codes. -/
def raisesForStatus (s : Nat) : Bool :=
  400 ≤ s && s < 600

/-- The two upstream oracles for one request: what the catalog search GET
and the stream GET would return. -/
structure Upstreams where
  searchResp : HttpResult
  streamResp : HttpResult

/-- One outbound request, identified by its variable parameters.  The
search GET (line 51) carries the formatted query; the stream GET (line 73)
carries the selected track id and the hard-coded quality parameter. -/
inductive Call where
  | searchGet (q : String)
  | streamGet (trackId : Json) (quality : Nat)

/-- What the handler produces: an HTTP response `jsonify(...), status`, or
an exception that escapes the handler uncaught. -/
inductive Outcome where
  | response (status : Nat) (body : Json)
  | exn (msg : String)

/-- Is the outcome an uncaught exception? -/
def Outcome.isExn : Outcome → Bool
  | .exn _ => true
  | .response _ _ => false

/-- The JSON error bodies the handler returns on failure. -/
def errBody (m : String) : Json :=
  .obj [("error", .str m)]

/-- Result of lines 64-71: reading `tracks` from the decoded search body
and picking the id field of the first element of the tracks list. -/
inductive SelectResult where
  | raised (msg : String)
  | noTracks
  | picked (trackId : Json)

/-- Lines 64-71 applied to the decoded search body `search_data`:
the get of the tracks key raising on a non-dict body, its truthiness
test sending empty/absent/falsy values to the 404 branch, and otherwise
the subscripts picking the first track and its id, with their possible
exceptions. -/
def selectTrack (sd : Json) : SelectResult :=
  match sd.pyGet "tracks" with
  | none => .raised "search AttributeError"
  | some none => .noTracks
  | some (some tracks) =>
    if !tracks.truthy then .noTracks
    else
      match tracks.pyIdx0 with
      | none => .raised "tracks subscript error"
      | some track =>
        match track.pySub "id" with
        | none => .raised "track id subscript error"
        | some tid => .picked tid

/-- Lines 76-93 applied to the result of the stream GET: the try/except around
the GET and `raise_for_status()` mapping failures to a 500 error, then
`stream_response.json()` (outside the try, so a decode failure raises),
then the get of the url key with the truthiness test choosing between
the 404 error and the 200 success carrying the stream URL. -/
def streamOutcome (r : HttpResult) : Outcome :=
  match r with
  | .netError _ => .response 500 (errBody "Failed to fetch stream data")
  | .resp st2 body2 =>
    if raisesForStatus st2 then
      .response 500 (errBody "Failed to fetch stream data")
    else
      match body2 with
      | none => .exn "stream JSONDecodeError"
      | some sd2 =>
        match sd2.pyGet "url" with
        | none => .exn "stream AttributeError"
        | some none => .response 404 (errBody "No stream URL found")
        | some (some u) =>
          if u.truthy then .response 200 (.obj [("stream_url", u)])
          else .response 404 (errBody "No stream URL found")

/-- The `/search` handler (lines 30-93), given the `q` query parameter
(`none` when absent) and the upstream oracles.  Returns the outcome and
the list of outbound GET calls actually issued, in order.  The body
follows the handler line by line: the missing-query check (35-37),
normalization (39-48), the search GET with its try/except (54-62), the
`.json()` decode outside the try (64), selection (64-71), and the stream
GET with the rest of the handler (73-93). -/
def search (q : Option String) (up : Upstreams) : Outcome × List Call :=
  match q with
  | none => (.response 400 (errBody "Missing query parameter q"), [])
  | some qs =>
    if qs = "" then (.response 400 (errBody "Missing query parameter q"), [])
    else
      let fq := formattedQuery qs
      match up.searchResp with
      | .netError _ => (.response 500 (errBody "Failed to fetch track data"), [.searchGet fq])
      | .resp st body =>
        if raisesForStatus st then
          (.response 500 (errBody "Failed to fetch track data"), [.searchGet fq])
        else
          match body with
          | none => (.exn "search JSONDecodeError", [.searchGet fq])
          | some sd =>
            match selectTrack sd with
            | .raised m => (.exn m, [.searchGet fq])
            | .noTracks => (.response 404 (errBody "No tracks found"), [.searchGet fq])
            | .picked tid =>
              (streamOutcome up.streamResp, [.searchGet fq, .streamGet tid 27])

/-- The query parameters of an inbound request that the spec mentions: the
query itself and an optional quality value.  The handler reads only `q`
(line 32); no quality parameter is ever read. -/
structure Args where
  q : Option String
  quality : Option Int

/-- The endpoint applied to an inbound request: the handler uses only the
`q` parameter of the request. -/
def handle (a : Args) (up : Upstreams) : Outcome × List Call :=
  search a.q up

/-- A well-formed catalog body with a single track of id 1. -/
def searchBodyOneTrack : Json :=
  .obj [("tracks", .arr [.obj [("id", .num 1)]])]

/-- Upstream pair used in concrete runs: a well-formed catalog response
with one track and a well-formed stream response. -/
def goodUp : Upstreams :=
  { searchResp := .resp 200 (some searchBodyOneTrack)
    streamResp := .resp 200 (some (.obj [("url", .str "http://cdn/x.flac")])) }

example : search (some "test") goodUp =
    (.response 200 (.obj [("stream_url", .str "http://cdn/x.flac")]),
     [.searchGet "test", .streamGet (.num 1) 27]) := rfl
example : search none goodUp = (.response 400 (errBody "Missing query parameter q"), []) := rfl
example : search (some "+++") goodUp =
    (.response 200 (.obj [("stream_url", .str "http://cdn/x.flac")]),
     [.searchGet "", .streamGet (.num 1) 27]) := rfl

/-- HTTP status of an outcome (`none` for an uncaught exception). -/
def Outcome.statusOf : Outcome → Option Nat
  | .response s _ => some s
  | .exn _ => none

/-- Every stream GET issued by the handler carries quality 27. -/
def quality27 : Call → Bool
  | .searchGet _ => true
  | .streamGet _ q => q == 27

section SearchLemmas

variable (qs : String) (up : Upstreams)

lemma search_netError (h : qs ≠ "") (m : String) (hsr : up.searchResp = .netError m) :
    search (some qs) up =
      (.response 500 (errBody "Failed to fetch track data"), [.searchGet (formattedQuery qs)]) := by
  simp only [search, if_neg h, hsr]

lemma search_badStatus (h : qs ≠ "") (st : Nat) (b : Option Json)
    (hsr : up.searchResp = .resp st b) (hst : raisesForStatus st = true) :
    search (some qs) up =
      (.response 500 (errBody "Failed to fetch track data"), [.searchGet (formattedQuery qs)]) := by
  simp only [search, if_neg h, hsr, hst, if_true]

lemma search_badJson (h : qs ≠ "") (st : Nat)
    (hsr : up.searchResp = .resp st none) (hst : raisesForStatus st = false) :
    search (some qs) up = (.exn "search JSONDecodeError", [.searchGet (formattedQuery qs)]) := by
  simp only [search, if_neg h, hsr, hst, Bool.false_eq_true, if_false]

lemma search_decoded (h : qs ≠ "") (st : Nat) (sd : Json)
    (hsr : up.searchResp = .resp st (some sd)) (hst : raisesForStatus st = false) :
    search (some qs) up =
      (match selectTrack sd with
        | .raised m => (.exn m, [.searchGet (formattedQuery qs)])
        | .noTracks => (.response 404 (errBody "No tracks found"), [.searchGet (formattedQuery qs)])
        | .picked tid =>
          (streamOutcome up.streamResp,
           [.searchGet (formattedQuery qs), .streamGet tid 27])) := by
  simp only [search, if_neg h, hsr, hst, Bool.false_eq_true, if_false]

lemma search_picked (h : qs ≠ "") (st : Nat) (sd : Json) (tid : Json)
    (hsr : up.searchResp = .resp st (some sd)) (hst : raisesForStatus st = false)
    (hsel : selectTrack sd = .picked tid) :
    search (some qs) up =
      (streamOutcome up.streamResp,
       [.searchGet (formattedQuery qs), .streamGet tid 27]) := by
  rw [search_decoded qs up h st sd hsr hst, hsel]

lemma search_noTracks (h : qs ≠ "") (st : Nat) (sd : Json)
    (hsr : up.searchResp = .resp st (some sd)) (hst : raisesForStatus st = false)
    (hsel : selectTrack sd = .noTracks) :
    search (some qs) up =
      (.response 404 (errBody "No tracks found"), [.searchGet (formattedQuery qs)]) := by
  rw [search_decoded qs up h st sd hsr hst, hsel]

lemma search_calls_cases (h : qs ≠ "") :
    (search (some qs) up).2 = [Call.searchGet (formattedQuery qs)]
    ∨ ∃ tid, (search (some qs) up).2
        = [Call.searchGet (formattedQuery qs), Call.streamGet tid 27] := by
  obtain ⟨sr, sc⟩ := up
  cases sr with
  | netError m => exact Or.inl (by rw [search_netError qs _ h m rfl])
  | resp st body =>
    cases hst : raisesForStatus st with
    | true => exact Or.inl (by rw [search_badStatus qs _ h st body rfl hst])
    | false =>
      cases body with
      | none => exact Or.inl (by rw [search_badJson qs _ h st rfl hst])
      | some sd =>
        rw [search_decoded qs _ h st sd rfl hst]
        cases hsel : selectTrack sd with
        | raised m => exact Or.inl rfl
        | noTracks => exact Or.inl rfl
        | picked tid => exact Or.inr ⟨tid, rfl⟩

end SearchLemmas

/-- Does the list start with a non-word character (or end here)?  This is
the `\b` boundary condition after `feat`/`ft` for the split pattern. -/
def nonWordStart : List Char → Bool
  | [] => true
  | c :: _ => !wordChar c

/-- No match of the split pattern starts at any position before `n`. -/
def noMatchBefore (cs : List Char) (n : Nat) : Bool :=
  (List.range n).all (fun i => !matchAt (cs.drop i))

lemma startsWithL_append (p l : List Char) : startsWithL p (p ++ l) = true := by
  induction p with
  | nil => rfl
  | cons c p ih => simp [startsWithL, ih]

lemma pySpace_toLower {c : Char} (h : pySpace c = true) : Char.toLower c = c := by
  have hc : ((((c = ' ' ∨ c = '\t') ∨ c = '\n') ∨ c = '\r') ∨ c = '\x0b') ∨ c = '\x0c' := by
    simpa [pySpace] using h
  rcases hc with ((((rfl | rfl) | rfl) | rfl) | rfl) | rfl <;> decide

lemma not_space_of_toLower_f {c : Char} (h : Char.toLower c = 'f') : pySpace c = false := by
  cases hps : pySpace c with
  | false => rfl
  | true =>
    rw [pySpace_toLower hps] at h
    subst h
    exact absurd hps (by decide)

lemma ne_paren_of_toLower_f {c : Char} (h : Char.toLower c = 'f') : c ≠ '(' := by
  intro hc
  subst hc
  exact absurd h (by decide)

lemma dropWhile_append_spaces (ws s : List Char) (h : ∀ c ∈ ws, pySpace c = true) :
    (ws ++ s).dropWhile pySpace = s.dropWhile pySpace := by
  induction ws with
  | nil => rfl
  | cons c ws ih =>
    simp only [List.cons_append, List.dropWhile_cons]
    rw [h c (by simp)]
    simp only [if_true]
    exact ih (fun c hc => h c (by simp [hc]))

lemma tok_head {tok : List Char}
    (htok : tok.map Char.toLower = "feat".data ∨ tok.map Char.toLower = "ft".data) :
    ∃ c t, tok = c :: t ∧ Char.toLower c = 'f' := by
  rcases htok with h | h <;>
  · cases tok with
    | nil => exact absurd h (by decide)
    | cons c t =>
      refine ⟨c, t, rfl, ?_⟩
      simp only [List.map_cons] at h
      injection h

lemma featTok_build (tok rest : List Char)
    (htok : tok.map Char.toLower = "feat".data ∨ tok.map Char.toLower = "ft".data)
    (hrest : nonWordStart rest = true) :
    featTok (tok ++ rest) = true := by
  rcases htok with h | h
  · have hlen : tok.length = 4 := by simpa using congrArg List.length h
    have h1 : startsWithL "feat".data ((tok ++ rest).map Char.toLower) = true := by
      rw [List.map_append, h]
      exact startsWithL_append _ _
    have h2 : (tok ++ rest).drop 4 = rest := by
      rw [← hlen]
      exact List.drop_left _ _
    unfold featTok
    rw [h1, h2]
    cases rest with
    | nil => rfl
    | cons c r =>
      have hw : wordChar c = false := by simpa [nonWordStart] using hrest
      simp [hw]
  · have hlen : tok.length = 2 := by simpa using congrArg List.length h
    have h1 : startsWithL "ft".data ((tok ++ rest).map Char.toLower) = true := by
      rw [List.map_append, h]
      exact startsWithL_append _ _
    have h2 : (tok ++ rest).drop 2 = rest := by
      rw [← hlen]
      exact List.drop_left _ _
    unfold featTok
    rw [h1, h2]
    cases rest with
    | nil => simp
    | cons c r =>
      have hw : wordChar c = false := by simpa [nonWordStart] using hrest
      simp [hw]

lemma parenFeat_not_paren {c : Char} (l : List Char) (hc : c ≠ '(') :
    parenFeat (c :: l) = featTok (c :: l) := by
  unfold parenFeat
  split
  · next heq => simp_all
  · rfl

lemma matchAt_build (ws par tok rest : List Char)
    (hws : ws ≠ []) (hall : ∀ c ∈ ws, pySpace c = true)
    (hpar : par = [] ∨ par = ['('])
    (htok : tok.map Char.toLower = "feat".data ∨ tok.map Char.toLower = "ft".data)
    (hrest : nonWordStart rest = true) :
    matchAt (ws ++ (par ++ (tok ++ rest))) = true := by
  obtain ⟨w, ws', rfl⟩ : ∃ w ws', ws = w :: ws' := by
    cases ws with
    | nil => exact absurd rfl hws
    | cons w ws' => exact ⟨w, ws', rfl⟩
  have hpf : parenFeat (par ++ (tok ++ rest)) = true := by
    rcases hpar with rfl | rfl
    · obtain ⟨c0, t, rfl, hc0⟩ := tok_head htok
      rw [List.nil_append, List.cons_append,
        parenFeat_not_paren _ (ne_paren_of_toLower_f hc0), ← List.cons_append]
      exact featTok_build _ _ htok hrest
    · rw [List.singleton_append]
      rw [show parenFeat ('(' :: (tok ++ rest)) = featTok (tok ++ rest) from rfl]
      exact featTok_build _ _ htok hrest
  have hne : ∃ d s', par ++ (tok ++ rest) = d :: s' ∧ pySpace d = false := by
    rcases hpar with rfl | rfl
    · obtain ⟨c0, t, rfl, hc0⟩ := tok_head htok
      exact ⟨c0, t ++ rest, by simp, not_space_of_toLower_f hc0⟩
    · exact ⟨'(', tok ++ rest, by simp, by decide⟩
  have hdw : ((w :: ws') ++ (par ++ (tok ++ rest))).dropWhile pySpace
      = par ++ (tok ++ rest) := by
    rw [dropWhile_append_spaces _ _ hall]
    obtain ⟨d, s', heq, hd⟩ := hne
    rw [heq, List.dropWhile_cons, hd]
    simp
  simp only [List.cons_append] at hdw ⊢
  simp only [matchAt]
  rw [hdw, hpf, hall w (by simp)]
  rfl

lemma splitIdx_of (a s : List Char)
    (hnm : ∀ i < a.length, matchAt ((a ++ s).drop i) = false)
    (hm : matchAt s = true) :
    splitIdx (a ++ s) = some a.length := by
  induction a with
  | nil =>
    cases s with
    | nil => exact absurd hm (by decide)
    | cons c r =>
      simp only [List.nil_append, List.length_nil]
      rw [splitIdx, if_pos hm]
  | cons c a' ih =>
    have h0 : matchAt (c :: (a' ++ s)) = false := by
      have := hnm 0 (by simp)
      simpa using this
    have hrest : ∀ i < a'.length, matchAt ((a' ++ s).drop i) = false := by
      intro i hi
      have := hnm (i + 1) (by simpa using Nat.succ_lt_succ hi)
      simpa using this
    simp only [List.cons_append, List.length_cons]
    rw [splitIdx, if_neg (by simp [h0]), ih hrest]
    rfl

lemma beforeFeat_of (a s : List Char)
    (hnm : ∀ i < a.length, matchAt ((a ++ s).drop i) = false)
    (hm : matchAt s = true) :
    beforeFeat (a ++ s) = a := by
  rw [beforeFeat, splitIdx_of a s hnm hm]
  exact List.take_left a s

lemma beforeFeat_of_none (cs : List Char) (h : splitIdx cs = none) :
    beforeFeat cs = cs := by
  rw [beforeFeat, h]

lemma replacePlus_eq_map (l : List Char) :
    replacePlus l = l.map (fun c => if c = '+' then ' ' else c) := by
  induction l with
  | nil => rfl
  | cons c rest ih =>
    by_cases hc : c = '+'
    · subst hc
      simp [replacePlus, ih]
    · simp [replacePlus, hc, ih]

lemma plus_not_mem_replacePlus (l : List Char) : '+' ∉ replacePlus l := by
  rw [replacePlus_eq_map]
  intro hmem
  obtain ⟨c, _, hc⟩ := List.mem_map.mp hmem
  by_cases h : c = '+' <;> simp [h] at hc

lemma replace26_cons (d : Char) (rest : List Char)
    (hne : ∀ rest1, d = '%' → rest = '2' :: '6' :: rest1 → False) :
    replace26 (d :: rest) = d :: replace26 rest := by
  rw [replace26.eq_def]
  split
  · next rest1 heq =>
    rw [List.cons.injEq] at heq
    exact absurd heq.2 (fun h2 => hne rest1 heq.1 h2)
  · next c' rest' hc heq =>
    rw [List.cons.injEq] at heq
    rw [← heq.1, ← heq.2]
  · next heq => exact absurd heq (by simp)

lemma mem_replace26 : ∀ (l : List Char), ∀ c ∈ replace26 l, c = '&' ∨ c ∈ l := by
  intro l
  induction l using replace26.induct with
  | case1 rest ih =>
    intro c hc
    simp only [replace26, List.mem_cons] at hc
    rcases hc with h | h
    · exact Or.inl h
    · rcases ih c h with h' | h'
      · exact Or.inl h'
      · exact Or.inr (by simp [h'])
  | case2 d rest hne ih =>
    intro c hc
    rw [replace26_cons d rest hne] at hc
    rcases List.mem_cons.mp hc with h | h
    · exact Or.inr (by simp [h])
    · rcases ih c h with h' | h'
      · exact Or.inl h'
      · exact Or.inr (by simp [h'])
  | case3 =>
    intro c hc
    simp [replace26] at hc

lemma mem_pyStrip {c : Char} {l : List Char} (h : c ∈ pyStrip l) : c ∈ l := by
  rw [pyStrip] at h
  rw [List.mem_reverse] at h
  have h1 := (List.dropWhile_suffix _).subset h
  rw [List.mem_reverse] at h1
  exact (List.dropWhile_suffix _).subset h1

lemma mem_stripLastfm {c : Char} {l : List Char} (h : c ∈ stripLastfm l) : c ∈ l := by
  rw [stripLastfm] at h
  split at h
  · exact List.drop_subset _ _ h
  · exact h

lemma mem_beforeFeat {c : Char} {l : List Char} (h : c ∈ beforeFeat l) : c ∈ l := by
  rw [beforeFeat] at h
  split at h
  · exact h
  · exact List.take_subset _ _ h

/-- C1: after the `+`-decoding, `%26`-decoding, trimming and last.fm
prefix-stripping steps, the normalizer keeps exactly the portion of the
string before the first match of the feat pattern (whitespace, then an
optional opening parenthesis, then a case variant of `feat` or `ft`
followed by a word boundary), trimmed.  First conjunct: for every string
of the shape `a ++ ws ++ par ++ tok ++ rest` whose first pattern match
starts right after `a`, the split keeps `a` trimmed — in particular every
query of the form `Artist Name feat. Other` (any case variant of
`feat`/`ft`, with or without parenthesis) normalizes to `Artist Name`.
Second conjunct: a string with no match is kept whole (only trimmed).
Remaining conjuncts: concrete instances through the full normalizer. -/
theorem c1_feat_split :
    (∀ (a ws par tok rest : List Char),
      ws ≠ [] →
      (∀ c ∈ ws, pySpace c = true) →
      (par = [] ∨ par = ['(']) →
      (tok.map Char.toLower = "feat".data ∨ tok.map Char.toLower = "ft".data) →
      nonWordStart rest = true →
      noMatchBefore (a ++ (ws ++ (par ++ (tok ++ rest)))) a.length = true →
      stepFive (a ++ (ws ++ (par ++ (tok ++ rest)))) = pyStrip a)
    ∧ (∀ cs : List Char, splitIdx cs = none → stepFive cs = pyStrip cs)
    ∧ formattedQuery "Artist Name feat. Other" = "Artist Name"
    ∧ formattedQuery "Artist Name FT. Other" = "Artist Name"
    ∧ formattedQuery "Artist Name (Feat. Other)" = "Artist Name" := by
  refine ⟨?_, ?_, by decide, by decide, by decide⟩
  · intro a ws par tok rest hws hall hpar htok hrest hnm
    simp only [noMatchBefore, List.all_eq_true, List.mem_range, Bool.not_eq_true'] at hnm
    have hm : matchAt (ws ++ (par ++ (tok ++ rest))) = true :=
      matchAt_build ws par tok rest hws hall hpar htok hrest
    rw [stepFive, beforeFeat_of _ _ hnm hm]
  · intro cs h
    rw [stepFive, beforeFeat_of_none cs h]

/-- Witness for C1: the first conjunct applied to the concrete split
of `Artist Name feat. Other`, and the second to a matchless string. -/
theorem c1_feat_split_witness :
    (stepFive ("Artist Name".data ++ ([' '] ++ ([] ++ ("feat".data ++ ". Other".data))))
        = pyStrip "Artist Name".data)
    ∧ stepFive "drift".data = pyStrip "drift".data :=
  ⟨c1_feat_split.1 "Artist Name".data [' '] [] "feat".data ". Other".data
      (by decide) (by decide) (Or.inl rfl) (Or.inl (by decide)) (by decide) (by decide),
   c1_feat_split.2.1 "drift".data (by decide)⟩

/-- C8: normalization replaces each literal `+` by a single space, and
this happens before every other step: the first conjunct says the `+`
step is exactly the character map sending `+` to one space; the second
exhibits the normalizer as that step composed first, before `%26`
decoding, trimming, prefix stripping and feat splitting; the third is an
observable consequence of decoding-first: no normalized query ever
contains `+`. -/
theorem c8_plus_decoded_first :
    (∀ raw : List Char, replacePlus raw = raw.map (fun c => if c = '+' then ' ' else c))
    ∧ (∀ raw : List Char,
        normList raw = stepFive (stripLastfm (pyStrip (replace26 (replacePlus raw)))))
    ∧ (∀ raw : List Char, (normList raw).count '+' = 0) := by
  refine ⟨replacePlus_eq_map, fun raw => rfl, ?_⟩
  intro raw
  rw [List.count_eq_zero]
  intro hmem
  rw [normList, stepFive] at hmem
  have h1 := mem_beforeFeat (mem_pyStrip hmem)
  have h2 := mem_pyStrip (mem_stripLastfm h1)
  rcases mem_replace26 _ _ h2 with h | h
  · exact absurd h (by decide)
  · exact plus_not_mem_replacePlus raw h

/-- C2 counterexample: a failing catalog search yields HTTP status 500,
not the claimed 503 (the handler returns the error body
`Failed to fetch track data` with status 500). -/
theorem c2_cex :
    search (some "test") ⟨.netError "connection refused", .netError "x"⟩
      = (.response 500 (errBody "Failed to fetch track data"), [.searchGet "test"])
    ∧ ((500 == 503 : Bool) = false) :=
  ⟨rfl, rfl⟩

/-- C2 amended: when the catalog-search GET fails with a network error or
a 4xx/5xx status, the handler returns status 500 with the error body
`Failed to fetch track data`; when the stream GET fails the same way, it
returns status 500 with `Failed to fetch stream data`. -/
theorem c2_upstream_failure_500 :
    (∀ (qs : String) (up : Upstreams) (m : String),
      qs ≠ "" → up.searchResp = .netError m →
      (search (some qs) up).1 = .response 500 (errBody "Failed to fetch track data"))
    ∧ (∀ (qs : String) (up : Upstreams) (st : Nat) (b : Option Json),
      qs ≠ "" → up.searchResp = .resp st b → raisesForStatus st = true →
      (search (some qs) up).1 = .response 500 (errBody "Failed to fetch track data"))
    ∧ (∀ (qs : String) (up : Upstreams) (st : Nat) (sd tid : Json) (m : String),
      qs ≠ "" → up.searchResp = .resp st (some sd) → raisesForStatus st = false →
      selectTrack sd = .picked tid → up.streamResp = .netError m →
      (search (some qs) up).1 = .response 500 (errBody "Failed to fetch stream data"))
    ∧ (∀ (qs : String) (up : Upstreams) (st : Nat) (sd tid : Json) (st2 : Nat)
        (b2 : Option Json),
      qs ≠ "" → up.searchResp = .resp st (some sd) → raisesForStatus st = false →
      selectTrack sd = .picked tid → up.streamResp = .resp st2 b2 →
      raisesForStatus st2 = true →
      (search (some qs) up).1 = .response 500 (errBody "Failed to fetch stream data")) := by
  refine ⟨?_, ?_, ?_, ?_⟩
  · intro qs up m h hsr
    rw [search_netError qs up h m hsr]
  · intro qs up st b h hsr hst
    rw [search_badStatus qs up h st b hsr hst]
  · intro qs up st sd tid m h hsr hst hsel hstr
    rw [search_picked qs up h st sd tid hsr hst hsel, hstr]
    rfl
  · intro qs up st sd tid st2 b2 h hsr hst hsel hstr hst2
    rw [search_picked qs up h st sd tid hsr hst hsel, hstr]
    simp [streamOutcome, hst2]

/-- Witness for C2 amended: all four failure shapes at concrete inputs. -/
theorem c2_upstream_failure_500_witness :
    ((search (some "test") ⟨.netError "boom", .netError "x"⟩).1
      = .response 500 (errBody "Failed to fetch track data"))
    ∧ ((search (some "test") ⟨.resp 502 none, .netError "x"⟩).1
      = .response 500 (errBody "Failed to fetch track data"))
    ∧ ((search (some "test") ⟨.resp 200 (some searchBodyOneTrack), .netError "x"⟩).1
      = .response 500 (errBody "Failed to fetch stream data"))
    ∧ ((search (some "test") ⟨.resp 200 (some searchBodyOneTrack), .resp 503 none⟩).1
      = .response 500 (errBody "Failed to fetch stream data")) :=
  ⟨c2_upstream_failure_500.1 "test" _ "boom" (by decide) rfl,
   c2_upstream_failure_500.2.1 "test" _ 502 none (by decide) rfl rfl,
   c2_upstream_failure_500.2.2.1 "test" _ 200 searchBodyOneTrack (.num 1) "x"
     (by decide) rfl rfl rfl rfl,
   c2_upstream_failure_500.2.2.2 "test" _ 200 searchBodyOneTrack (.num 1) 503 none
     (by decide) rfl rfl rfl rfl rfl⟩

/-- C3 counterexample: the raw query `+++` normalizes to the empty term,
yet the handler does not return 400 and does call both upstreams (the
missing-query check on line 35 runs before normalization, and nothing
checks the normalized term). -/
theorem c3_cex :
    formattedQuery "+++" = ""
    ∧ search (some "+++") goodUp
        = (.response 200 (.obj [("stream_url", .str "http://cdn/x.flac")]),
           [.searchGet "", .streamGet (.num 1) 27])
    ∧ (((search (some "+++") goodUp).2.length == 0) = false)
    ∧ (((search (some "+++") goodUp).1.statusOf == some 400) = false) :=
  ⟨rfl, rfl, rfl, rfl⟩

/-- C3 amended: only a missing or empty raw `q` parameter is rejected
with 400 and zero outbound calls; every nonempty raw query — including
one whose normalized term is empty, such as `+++` — leads to a catalog
search GET carrying its (possibly empty) normalized term. -/
theorem c3_empty_handling :
    (∀ up : Upstreams,
      search none up = (.response 400 (errBody "Missing query parameter q"), []))
    ∧ (∀ up : Upstreams,
      search (some "") up = (.response 400 (errBody "Missing query parameter q"), []))
    ∧ (∀ (qs : String) (up : Upstreams), qs ≠ "" →
        (search (some qs) up).2.head? = some (.searchGet (formattedQuery qs))) := by
  refine ⟨fun up => rfl, fun up => rfl, ?_⟩
  intro qs up h
  rcases search_calls_cases qs up h with hc | ⟨tid, hc⟩ <;> rw [hc] <;> rfl

/-- Witness for C3 amended: the query `+++` produces a search call whose
term is its (empty) normalization. -/
theorem c3_empty_handling_witness :
    (search (some "+++") goodUp).2.head? = some (.searchGet (formattedQuery "+++")) :=
  c3_empty_handling.2.2 "+++" goodUp (by decide)

/-- C4 counterexample: a request with quality 99 and a valid query is not
rejected — the handler never reads a quality parameter, issues both
outbound calls (two, not zero) and returns 200. -/
theorem c4_cex :
    handle ⟨some "test", some 99⟩ goodUp
      = (.response 200 (.obj [("stream_url", .str "http://cdn/x.flac")]),
         [.searchGet "test", .streamGet (.num 1) 27])
    ∧ ((((99 : Int) == 5) || ((99 : Int) == 6) || ((99 : Int) == 7)
        || ((99 : Int) == 27)) = false)
    ∧ (((handle ⟨some "test", some 99⟩ goodUp).2.length == 0) = false)
    ∧ (((handle ⟨some "test", some 99⟩ goodUp).1.statusOf == some 400) = false) :=
  ⟨rfl, rfl, rfl, rfl⟩

/-- C4 amended: a caller-supplied quality value outside the allowed set
is simply ignored: the endpoint behaves exactly as when no quality is
supplied — there is no validation and no 400 on account of quality. -/
theorem c4_quality_never_validated :
    ∀ (q : Option String) (qual : Int) (up : Upstreams),
      ¬(qual = 5 ∨ qual = 6 ∨ qual = 7 ∨ qual = 27) →
      handle ⟨q, some qual⟩ up = handle ⟨q, none⟩ up :=
  fun _ _ _ _ => rfl

/-- Witness for C4 amended: quality 99 behaves as no quality at all. -/
theorem c4_quality_never_validated_witness :
    handle ⟨some "test", some 99⟩ goodUp = handle ⟨some "test", none⟩ goodUp :=
  c4_quality_never_validated (some "test") 99 goodUp (by decide)

/-- Upstreams whose stream response decodes to an object holding only an
empty data object: JSON with no `url` key anywhere the handler looks. -/
def noUrlUp : Upstreams :=
  { searchResp := .resp 200 (some searchBodyOneTrack)
    streamResp := .resp 200 (some (.obj [("data", .obj [])])) }

/-- C5 counterexample: a resolve-stage body with only an empty data field yields the
error `No stream URL found` with HTTP status 404, not the claimed 500
(line 88-90 treats a missing `url` as not-found). -/
theorem c5_cex :
    search (some "test") noUrlUp
      = (.response 404 (errBody "No stream URL found"),
         [.searchGet "test", .streamGet (.num 1) 27])
    ∧ ((404 == 500 : Bool) = false) :=
  ⟨rfl, rfl⟩

/-- C5 amended: a resolve-stage response that decodes to JSON but has no
`url` key yields the error `No stream URL found` with HTTP status 404 —
a different outcome from a transport error (which gives 500), but not the
claimed 500 contract violation. -/
theorem c5_missing_url_404 :
    ∀ (qs : String) (up : Upstreams) (st : Nat) (sd tid : Json) (st2 : Nat) (sd2 : Json),
      qs ≠ "" → up.searchResp = .resp st (some sd) → raisesForStatus st = false →
      selectTrack sd = .picked tid →
      up.streamResp = .resp st2 (some sd2) → raisesForStatus st2 = false →
      sd2.pyGet "url" = some none →
      search (some qs) up
        = (.response 404 (errBody "No stream URL found"),
           [.searchGet (formattedQuery qs), .streamGet tid 27]) := by
  intro qs up st sd tid st2 sd2 h hsr hst hsel hstr hst2 hu
  rw [search_picked qs up h st sd tid hsr hst hsel, hstr]
  simp [streamOutcome, hst2, hu]

/-- Witness for C5 amended: the data-only body at concrete inputs. -/
theorem c5_missing_url_404_witness :
    search (some "test") noUrlUp
      = (.response 404 (errBody "No stream URL found"),
         [.searchGet (formattedQuery "test"), .streamGet (.num 1) 27]) :=
  c5_missing_url_404 "test" noUrlUp 200 searchBodyOneTrack (.num 1) 200
    (.obj [("data", .obj [])]) (by decide) rfl rfl rfl rfl rfl rfl

/-- Upstreams whose search response is 200 but not decodable as JSON. -/
def badJsonUp : Upstreams :=
  { searchResp := .resp 200 none
    streamResp := .netError "x" }

/-- C6 counterexample: a 200 catalog response whose body is not decodable
as JSON makes `search_response.json()` (line 64, outside the try/except)
raise, and the exception escapes the handler: the outcome is an uncaught
exception, not a tagged error response. -/
theorem c6_cex :
    search (some "test") badJsonUp = (.exn "search JSONDecodeError", [.searchGet "test"])
    ∧ (search (some "test") badJsonUp).1.isExn = true :=
  ⟨rfl, rfl⟩

/-- C6 amended: network errors and 4xx/5xx statuses are caught and mapped
to tagged 500 errors, but a success-status response whose body is not
decodable as JSON raises an uncaught exception from the handler, at both
stages: the `.json()` calls on lines 64 and 86 sit outside the
try/except blocks. -/
theorem c6_undecodable_body_raises :
    (∀ (qs : String) (up : Upstreams) (st : Nat),
      qs ≠ "" → up.searchResp = .resp st none → raisesForStatus st = false →
      (search (some qs) up).1 = .exn "search JSONDecodeError")
    ∧ (∀ (qs : String) (up : Upstreams) (st : Nat) (sd tid : Json) (st2 : Nat),
      qs ≠ "" → up.searchResp = .resp st (some sd) → raisesForStatus st = false →
      selectTrack sd = .picked tid →
      up.streamResp = .resp st2 none → raisesForStatus st2 = false →
      (search (some qs) up).1 = .exn "stream JSONDecodeError") := by
  constructor
  · intro qs up st h hsr hst
    rw [search_badJson qs up h st hsr hst]
  · intro qs up st sd tid st2 h hsr hst hsel hstr hst2
    rw [search_picked qs up h st sd tid hsr hst hsel, hstr]
    simp [streamOutcome, hst2]

/-- Witness for C6 amended: undecodable bodies at both stages. -/
theorem c6_undecodable_body_raises_witness :
    (search (some "test") badJsonUp).1 = .exn "search JSONDecodeError"
    ∧ (search (some "test")
        ⟨.resp 200 (some searchBodyOneTrack), .resp 200 none⟩).1
        = .exn "stream JSONDecodeError" :=
  ⟨c6_undecodable_body_raises.1 "test" badJsonUp 200 (by decide) rfl rfl,
   c6_undecodable_body_raises.2 "test" _ 200 searchBodyOneTrack (.num 1) 200
     (by decide) rfl rfl rfl rfl rfl⟩

/-- C7: flat-list selection.  First conjunct: when the decoded catalog
body maps `tracks` to a non-empty list, the handler uses exactly the
first element — the stream GET carries the id of that element with no other
validity check.  Second conjunct: when `tracks` is absent or maps to the
empty list, the handler returns 404 `No tracks found` after the single
search call. -/
theorem c7_flat_list_selection :
    (∀ (qs : String) (up : Upstreams) (st : Nat) (sd t tid : Json) (ts : List Json),
      qs ≠ "" → up.searchResp = .resp st (some sd) → raisesForStatus st = false →
      sd.pyGet "tracks" = some (some (.arr (t :: ts))) →
      t.pySub "id" = some tid →
      (search (some qs) up).2 = [.searchGet (formattedQuery qs), .streamGet tid 27])
    ∧ (∀ (qs : String) (up : Upstreams) (st : Nat) (sd : Json),
      qs ≠ "" → up.searchResp = .resp st (some sd) → raisesForStatus st = false →
      (sd.pyGet "tracks" = some none ∨ sd.pyGet "tracks" = some (some (.arr []))) →
      search (some qs) up
        = (.response 404 (errBody "No tracks found"),
           [.searchGet (formattedQuery qs)])) := by
  constructor
  · intro qs up st sd t tid ts h hsr hst htr hid
    have hsel : selectTrack sd = .picked tid := by
      simp [selectTrack, htr, Json.truthy, Json.pyIdx0, hid]
    rw [search_picked qs up h st sd tid hsr hst hsel]
  · intro qs up st sd h hsr hst htr
    have hsel : selectTrack sd = .noTracks := by
      rcases htr with htr | htr
      · simp [selectTrack, htr]
      · simp [selectTrack, htr, Json.truthy]
    rw [search_noTracks qs up h st sd hsr hst hsel]

/-- Witness for C7: the one-track body picks track id 1; an empty
`tracks` list yields the 404. -/
theorem c7_flat_list_selection_witness :
    (search (some "test") goodUp).2
      = [.searchGet (formattedQuery "test"), .streamGet (.num 1) 27]
    ∧ search (some "test") ⟨.resp 200 (some (.obj [("tracks", .arr [])])), .netError "x"⟩
        = (.response 404 (errBody "No tracks found"),
           [.searchGet (formattedQuery "test")]) :=
  ⟨c7_flat_list_selection.1 "test" goodUp 200 searchBodyOneTrack
      (.obj [("id", .num 1)]) (.num 1) [] (by decide) rfl rfl rfl rfl,
   c7_flat_list_selection.2 "test" _ 200 (.obj [("tracks", .arr [])])
      (by decide) rfl rfl (Or.inr rfl)⟩

/-- C9: the handler never reads a caller-supplied quality — two requests
differing only in the quality argument produce identical results and
identical outbound calls — and every stream GET it issues carries the
hard-coded quality 27 (line 73). -/
theorem c9_quality_fixed_27 :
    (∀ (q : Option String) (q1 q2 : Option Int) (up : Upstreams),
      handle ⟨q, q1⟩ up = handle ⟨q, q2⟩ up)
    ∧ (∀ (a : Args) (up : Upstreams), (handle a up).2.all quality27 = true) := by
  refine ⟨fun _ _ _ _ => rfl, ?_⟩
  intro a up
  obtain ⟨q, qual⟩ := a
  show (search q up).2.all quality27 = true
  cases q with
  | none => rfl
  | some qs =>
    by_cases h : qs = ""
    · subst h
      rfl
    · rcases search_calls_cases qs up h with hc | ⟨tid, hc⟩ <;> rw [hc] <;> rfl

/-- Upstreams whose stream response maps `url` to an empty string. -/
def emptyUrlUp : Upstreams :=
  { searchResp := .resp 200 (some searchBodyOneTrack)
    streamResp := .resp 200 (some (.obj [("url", .str "")])) }

/-- C10: on a decoded resolve-stage body, a `url` key bound to a falsy
value (empty string, 0, null, etc.) is treated as missing and yields the
404 error, and the 200 success carrying exactly `u` is returned iff the
body maps `url` to exactly that truthy value. -/
theorem c10_url_truthiness :
    ∀ (qs : String) (up : Upstreams) (st : Nat) (sd tid : Json) (st2 : Nat) (sd2 : Json),
      qs ≠ "" → up.searchResp = .resp st (some sd) → raisesForStatus st = false →
      selectTrack sd = .picked tid →
      up.streamResp = .resp st2 (some sd2) → raisesForStatus st2 = false →
      ((∀ u : Json, sd2.pyGet "url" = some (some u) → u.truthy = false →
          (search (some qs) up).1 = .response 404 (errBody "No stream URL found"))
       ∧ (∀ u : Json,
          (search (some qs) up).1 = .response 200 (.obj [("stream_url", u)])
            ↔ (sd2.pyGet "url" = some (some u) ∧ u.truthy = true))) := by
  intro qs up st sd tid st2 sd2 h hsr hst hsel hstr hst2
  have hres : (search (some qs) up).1 = streamOutcome (.resp st2 (some sd2)) := by
    rw [search_picked qs up h st sd tid hsr hst hsel, hstr]
  constructor
  · intro u hu hfal
    rw [hres]
    simp [streamOutcome, hst2, hu, hfal]
  · intro u
    rw [hres]
    simp only [streamOutcome, hst2, Bool.false_eq_true, if_false]
    cases hu : sd2.pyGet "url" with
    | none => simp
    | some uo =>
      cases uo with
      | none => simp
      | some u' =>
        dsimp only
        by_cases ht : u'.truthy = true
        · rw [if_pos ht]
          constructor
          · intro he
            have hu' : u' = u := by
              have h1 : Json.obj [("stream_url", u')] = Json.obj [("stream_url", u)] := by
                injection he
              have h2 : ([("stream_url", u')] : List (String × Json))
                  = [("stream_url", u)] := by
                injection h1
              have h3 : (("stream_url", u') : String × Json) = ("stream_url", u) := by
                injection h2
              exact congrArg Prod.snd h3
            exact ⟨by rw [hu'], hu' ▸ ht⟩
          · rintro ⟨he, -⟩
            have h1 : (some u' : Option Json) = some u := by injection he
            have hu' : u' = u := by injection h1
            rw [← hu']
        · rw [if_neg ht]
          constructor
          · intro he
            exact absurd he (by simp)
          · rintro ⟨he, htr⟩
            have h1 : (some u' : Option Json) = some u := by injection he
            have hu' : u' = u := by injection h1
            rw [← hu'] at htr
            exact absurd htr ht

/-- Witness for C10: an empty-string `url` gives the 404, and the truthy
`url` of `goodUp` gives the 200 success with that exact value. -/
theorem c10_url_truthiness_witness :
    (search (some "test") emptyUrlUp).1 = .response 404 (errBody "No stream URL found")
    ∧ (search (some "test") goodUp).1
        = .response 200 (.obj [("stream_url", .str "http://cdn/x.flac")]) :=
  ⟨(c10_url_truthiness "test" emptyUrlUp 200 searchBodyOneTrack (.num 1) 200
      (.obj [("url", .str "")]) (by decide) rfl rfl rfl rfl rfl).1 (.str "") rfl rfl,
   ((c10_url_truthiness "test" goodUp 200 searchBodyOneTrack (.num 1) 200
      (.obj [("url", .str "http://cdn/x.flac")]) (by decide) rfl rfl rfl rfl rfl).2
      (.str "http://cdn/x.flac")).mpr ⟨rfl, rfl⟩⟩
